import Mathlib

/-!
Formal model of the Waffer backend authentication subsystem
(src/backend/controllers/authController.js, src/backend/models/User.js,
and the JWT middleware), with the Supabase client modelled as an
external collaborator whose per-request outcomes are inputs.
-/

namespace Waffer

/-- A primitive JSON value appearing in a response body. -/
inductive PrimVal where
  | vs (s : String)
  | vb (b : Bool)
  | vn (n : Int)
  | vnull
deriving DecidableEq, Repr

/-- A field of a response body: a primitive, a flat nested object,
or an array of primitives. -/
inductive BodyField where
  | val (v : PrimVal)
  | obj (fields : List (String × PrimVal))
  | arr (items : List PrimVal)
deriving DecidableEq, Repr

/-- An HTTP response: `res.status(code).json(body)`. -/
structure Resp where
  status : Nat
  body : List (String × BodyField)
deriving DecidableEq, Repr

def optStrVal : Option String → PrimVal
  | some s => .vs s
  | none => .vnull

def optNatVal : Option Nat → PrimVal
  | some n => .vn (Int.ofNat n)
  | none => .vnull

/-- A row of the `public.users` table, with the columns the auth
subsystem reads or writes.  `is_verified` defaults to FALSE in the
schema; timestamps are modelled as abstract Nat instants. -/
structure Profile where
  id : Nat
  name : String
  email : String
  phone : String
  password_hash : Option String
  user_type : String
  city : String
  district : Option String
  latitude : Option Int
  longitude : Option Int
  business_name : Option String
  business_type : Option String
  commercial_registration : Option String
  family_size : Option Nat
  specialty : Option String
  years_of_experience : Option Nat
  nafath_id : Option String
  is_nafath_verified : Bool
  is_active : Bool
  is_verified : Bool
  created_at : Option Nat
  updated_at : Option Nat
deriving DecidableEq, Repr

/-- A Supabase `auth.users` record created by `supabase.auth.signUp`. -/
structure AuthAccount where
  id : Nat
  email : String
  password : String
deriving DecidableEq, Repr

/-- The externally stored state: the `public.users` table plus the
auth service's account list. -/
structure St where
  users : List Profile
  auth : List AuthAccount
deriving DecidableEq, Repr

/-- `sendTokenResponse` (authController.js lines 7-25) serializes a
fixed whitelist of user fields; `password_hash` is not among them. -/
def userObjFields (u : Profile) : List (String × PrimVal) :=
  [("id", .vn (Int.ofNat u.id)),
   ("name", .vs u.name),
   ("email", .vs u.email),
   ("phone", .vs u.phone),
   ("user_type", .vs u.user_type),
   ("is_verified", .vb u.is_verified),
   ("is_nafath_verified", .vb u.is_nafath_verified),
   ("business_name", optStrVal u.business_name),
   ("family_size", optNatVal u.family_size),
   ("city", .vs u.city),
   ("created_at", optNatVal u.created_at)]

def sendTokenResponse (u : Profile) (session : Option String) (statusCode : Nat) : Resp :=
  { status := statusCode,
    body := [("success", .val (.vb true)),
             ("session", .val (optStrVal session)),
             ("user", .obj (userObjFields u))] }

/-- `res.status(s).json({success:false, message:m})`. -/
def errResp (status : Nat) (message : String) : Resp :=
  { status := status,
    body := [("success", .val (.vb false)),
             ("message", .val (.vs message))] }

/-- `res.status(s).json({success:false, message:m, errorCode:c})`. -/
def errRespCode (status : Nat) (message errorCode : String) : Resp :=
  { status := status,
    body := [("success", .val (.vb false)),
             ("message", .val (.vs message)),
             ("errorCode", .val (.vs errorCode))] }

/-- `supabase.auth.signInWithPassword`: succeeds iff some auth account
carries the email with exactly that password.  (The registration flows
store emails already lower-cased by the validator, so the auth
service's case-insensitive matching is modelled as exact matching on
the normalized email.) -/
def signIn (st : St) (email password : String) : Option AuthAccount :=
  st.auth.find? (fun a => a.email == email && a.password == password)

/-- `.from('users').select('*').eq('id', id).single()`: `id` is the
primary key, so at most one row matches. -/
def findById (users : List Profile) (id : Nat) : Option Profile :=
  users.find? (fun u => u.id == id)

/-- `login` (authController.js lines 821-879).  `session` is the
session object the auth service returns on a successful sign-in. -/
def login (st : St) (email password : String) (session : Option String) : Resp :=
  if email = "" ∨ password = "" then
    errResp 400 "Please provide email and password"
  else
    match signIn st email password with
    | none => errResp 401 "Invalid credentials"
    | some a =>
      match findById st.users a.id with
      | none => errResp 500 "Failed to fetch user profile"
      | some u =>
        if u.is_active = false then errResp 401 "Account is deactivated"
        else sendTokenResponse u session 200

/-- Outcome of the uniqueness pre-check query (error result vs. thrown
exception vs. success). -/
inductive QueryOutcome where
  | ok
  | err
  | exn
deriving DecidableEq, Repr

/-- Outcome of `supabase.auth.signUp`: success, an error result with a
message, or a thrown exception. -/
inductive AuthOutcome where
  | ok
  | err (message : String)
  | exn
deriving DecidableEq, Repr

/-- Outcome of the profile insert: success, an error result with a
Postgres error code, or a thrown exception. -/
inductive InsertOutcome where
  | ok
  | err (code : String)
  | exn
deriving DecidableEq, Repr

/-- JavaScript `String.prototype.includes`. -/
def jsIncludes (s sub : String) : Bool :=
  decide (sub.toList <:+: s.toList)

/-- JavaScript `x || null` applied to an optional number: 0 is falsy. -/
def jsNumOrNull : Option Int → Option Int
  | some v => if v = 0 then none else some v
  | none => none

/-- Per-request outcomes of the external collaborators used by a
registration flow: pre-check query, auth signUp (with the id the auth
service assigns and the session it returns), bcrypt (with the hash it
computes), the profile insert, and `auth.admin.deleteUser` cleanup. -/
structure RegEnv where
  checkOutcome : QueryOutcome
  signUpOutcome : AuthOutcome
  freshId : Nat
  session : Option String
  hashErr : Bool
  hashed : String
  insertOutcome : InsertOutcome
  cleanupErr : Bool
  time : Nat
deriving DecidableEq, Repr

/-- The customer controller's request data after
`ValidationUtils.validateRegistrationData` (the `sanitizedData` object
plus the validation verdict), together with the raw
`location.coordinates` it reads again at insert time. -/
structure CustomerData where
  validation_isValid : Bool
  validation_errors : List String
  name : String
  email : String
  phone : String
  password : String
  city : String
  district : Option String
  bodyCoordinates : Option (Int × Int)
deriving DecidableEq, Repr

/-- `registerShop`'s `sanitizedData` (businessName required,
businessType and commercialRegistration `|| null`). -/
structure ShopData where
  validation_isValid : Bool
  validation_errors : List String
  name : String
  email : String
  phone : String
  password : String
  city : String
  district : Option String
  businessName : String
  businessType : Option String
  commercialRegistration : Option String
  bodyCoordinates : Option (Int × Int)
deriving DecidableEq, Repr

/-- `registerFamily`'s `sanitizedData` (familySize required; specialty,
yearsOfExperience and businessName `|| null`). -/
structure FamilyData where
  validation_isValid : Bool
  validation_errors : List String
  name : String
  email : String
  phone : String
  password : String
  city : String
  district : Option String
  familySize : Nat
  specialty : Option String
  yearsOfExperience : Option Nat
  businessName : Option String
  bodyCoordinates : Option (Int × Int)
deriving DecidableEq, Repr

/-- The 400 body for a failed validation:
`{success, message, errorCode, errors}`. -/
def validationErrResp (errors : List String) : Resp :=
  { status := 400,
    body := [("success", .val (.vb false)),
             ("message", .val (.vs "Validation failed")),
             ("errorCode", .val (.vs "VALIDATION_ERROR")),
             ("errors", .arr (errors.map PrimVal.vs))] }

/-- The `authError` dispatch shared verbatim by the three registration
controllers; only the "Signup is disabled" message text differs. -/
def signUpErrorResp (msg disabledMessage : String) : Resp :=
  if jsIncludes msg "Email address" && jsIncludes msg "invalid" then
    { status := 400,
      body := [("success", .val (.vb false)),
               ("message", .val (.vs "Email address is invalid. Please configure custom SMTP or use a valid email domain.")),
               ("errorCode", .val (.vs "INVALID_EMAIL_DOMAIN")),
               ("details", .val (.vs "Default SMTP only allows team member emails. Configure custom SMTP in Supabase dashboard."))] }
  else if jsIncludes msg "Password should be at least" then
    errRespCode 400 "Password must be at least 6 characters long" "WEAK_PASSWORD"
  else if jsIncludes msg "Signup is disabled" then
    errRespCode 503 disabledMessage "SIGNUP_DISABLED"
  else if jsIncludes msg "rate limit" then
    errRespCode 429 "Too many registration attempts. Please try again later." "RATE_LIMIT_EXCEEDED"
  else
    errRespCode 400 (if msg = "" then "Authentication service error" else msg) "AUTH_SERVICE_ERROR"

/-- `supabase.auth.admin.deleteUser` inside a try/catch: on success the
auth record disappears, a cleanup failure leaves it in place (and is
only logged). -/
def applyCleanup (st : St) (aid : Nat) (cleanupErr : Bool) : St :=
  if cleanupErr then st
  else { st with auth := st.auth.filter (fun a => a.id != aid) }

/-- Result of a registration flow: the HTTP response, the state after
the call, and the auth ids for which `auth.admin.deleteUser` was
attempted (whether or not the attempt succeeded). -/
structure RegResult where
  resp : Resp
  st : St
  deleteAttempts : List Nat
deriving DecidableEq, Repr

/-- The uniqueness pre-check each registration controller issues:
`.select(...).or('email.eq.<email>,phone.eq.<phone>')` — one query
filtering on email OR phone. -/
def precheck (users : List Profile) (email phone : String) : List Profile :=
  users.filter (fun u => u.email == email || u.phone == phone)

def userConflictResp (field : String) : Resp :=
  { status := 409,
    body := [("success", .val (.vb false)),
             ("message", .val (.vs ("User with this " ++ field ++ " already exists"))),
             ("errorCode", .val (.vs "USER_ALREADY_EXISTS")),
             ("conflictField", .val (.vs field))] }

def shopConflictResp (field : String) : Resp :=
  { status := 409,
    body := [("success", .val (.vb false)),
             ("message", .val (.vs ("Shop with this " ++ field ++ " already exists"))),
             ("errorCode", .val (.vs "DUPLICATE_SHOP_DATA")),
             ("field", .val (.vs field))] }

def familyConflictResp (field : String) : Resp :=
  { status := 409,
    body := [("success", .val (.vb false)),
             ("message", .val (.vs ("Productive family with this " ++ field ++ " already exists"))),
             ("errorCode", .val (.vs "DUPLICATE_FAMILY_DATA")),
             ("field", .val (.vs field))] }

/-- The row inserted by `register` (customer): `is_verified` and
`is_nafath_verified` are not in the insert and take the schema default
FALSE. -/
def newCustomerProfile (inp : CustomerData) (env : RegEnv) : Profile :=
  { id := env.freshId, name := inp.name, email := inp.email, phone := inp.phone,
    password_hash := some env.hashed, user_type := "customer",
    city := inp.city, district := inp.district,
    latitude := jsNumOrNull (inp.bodyCoordinates.map Prod.fst),
    longitude := jsNumOrNull (inp.bodyCoordinates.map Prod.snd),
    business_name := none, business_type := none, commercial_registration := none,
    family_size := none, specialty := none, years_of_experience := none,
    nafath_id := none, is_nafath_verified := false,
    is_active := true, is_verified := false,
    created_at := some env.time, updated_at := some env.time }

/-- The row inserted by `registerShop`. -/
def newShopProfile (inp : ShopData) (env : RegEnv) : Profile :=
  { id := env.freshId, name := inp.name, email := inp.email, phone := inp.phone,
    password_hash := some env.hashed, user_type := "shop",
    city := inp.city, district := inp.district,
    latitude := jsNumOrNull (inp.bodyCoordinates.map Prod.fst),
    longitude := jsNumOrNull (inp.bodyCoordinates.map Prod.snd),
    business_name := some inp.businessName, business_type := inp.businessType,
    commercial_registration := inp.commercialRegistration,
    family_size := none, specialty := none, years_of_experience := none,
    nafath_id := none, is_nafath_verified := false,
    is_active := true, is_verified := false,
    created_at := some env.time, updated_at := some env.time }

/-- The row inserted by `registerFamily`. -/
def newFamilyProfile (inp : FamilyData) (env : RegEnv) : Profile :=
  { id := env.freshId, name := inp.name, email := inp.email, phone := inp.phone,
    password_hash := some env.hashed, user_type := "productive_family",
    city := inp.city, district := inp.district,
    latitude := jsNumOrNull (inp.bodyCoordinates.map Prod.fst),
    longitude := jsNumOrNull (inp.bodyCoordinates.map Prod.snd),
    business_name := inp.businessName, business_type := none,
    commercial_registration := none,
    family_size := some inp.familySize, specialty := inp.specialty,
    years_of_experience := inp.yearsOfExperience,
    nafath_id := none, is_nafath_verified := false,
    is_active := true, is_verified := false,
    created_at := some env.time, updated_at := some env.time }

/-- `register` (authController.js lines 43-286). -/
def register (st : St) (inp : CustomerData) (env : RegEnv) : RegResult :=
  if inp.validation_isValid = false then
    { resp := validationErrResp inp.validation_errors, st := st, deleteAttempts := [] }
  else
    match env.checkOutcome with
    | .exn =>
      { resp := errRespCode 500 "Database connection failed" "DATABASE_CONNECTION_ERROR",
        st := st, deleteAttempts := [] }
    | .err =>
      { resp := errRespCode 500 "Failed to verify user uniqueness" "DATABASE_CHECK_ERROR",
        st := st, deleteAttempts := [] }
    | .ok =>
      match precheck st.users inp.email inp.phone with
      | e :: _ =>
        { resp := userConflictResp (if e.email = inp.email then "email" else "phone"),
          st := st, deleteAttempts := [] }
      | [] =>
        match env.signUpOutcome with
        | .exn =>
          { resp := errRespCode 500 "Authentication service unavailable" "AUTH_SERVICE_UNAVAILABLE",
            st := st, deleteAttempts := [] }
        | .err msg =>
          { resp := signUpErrorResp msg "User registration is currently disabled",
            st := st, deleteAttempts := [] }
        | .ok =>
          let st1 : St :=
            { st with auth := st.auth ++ [{ id := env.freshId, email := inp.email, password := inp.password }] }
          if env.hashErr then
            { resp := errRespCode 500 "Password processing failed" "PASSWORD_HASH_ERROR",
              st := applyCleanup st1 env.freshId env.cleanupErr,
              deleteAttempts := [env.freshId] }
          else
            match env.insertOutcome with
            | .err code =>
              { resp :=
                  if code = "23505" then
                    errRespCode 409 "User with this email or phone already exists" "DUPLICATE_USER_DATA"
                  else if code = "23502" then
                    errRespCode 400 "Required user information is missing" "MISSING_USER_DATA"
                  else
                    errRespCode 500 "Failed to create user profile" "DATABASE_INSERT_ERROR",
                st := applyCleanup st1 env.freshId env.cleanupErr,
                deleteAttempts := [env.freshId] }
            | .exn =>
              { resp := errRespCode 500 "Database service unavailable" "DATABASE_SERVICE_UNAVAILABLE",
                st := applyCleanup st1 env.freshId env.cleanupErr,
                deleteAttempts := [env.freshId] }
            | .ok =>
              let p := newCustomerProfile inp env
              { resp := sendTokenResponse p env.session 201,
                st := { st1 with users := st1.users ++ [p] },
                deleteAttempts := [] }

/-- `registerShop` (authController.js lines 291-549). -/
def registerShop (st : St) (inp : ShopData) (env : RegEnv) : RegResult :=
  if inp.validation_isValid = false then
    { resp := validationErrResp inp.validation_errors, st := st, deleteAttempts := [] }
  else
    match env.checkOutcome with
    | .exn =>
      { resp := errRespCode 500 "Database service unavailable" "DATABASE_SERVICE_UNAVAILABLE",
        st := st, deleteAttempts := [] }
    | .err =>
      { resp := errRespCode 500 "Database service error" "DATABASE_QUERY_ERROR",
        st := st, deleteAttempts := [] }
    | .ok =>
      match precheck st.users inp.email inp.phone with
      | e :: _ =>
        { resp := shopConflictResp (if e.email = inp.email then "email" else "phone"),
          st := st, deleteAttempts := [] }
      | [] =>
        match env.signUpOutcome with
        | .exn =>
          { resp := errRespCode 500 "Authentication service unavailable" "AUTH_SERVICE_UNAVAILABLE",
            st := st, deleteAttempts := [] }
        | .err msg =>
          { resp := signUpErrorResp msg "Shop registration is currently disabled",
            st := st, deleteAttempts := [] }
        | .ok =>
          let st1 : St :=
            { st with auth := st.auth ++ [{ id := env.freshId, email := inp.email, password := inp.password }] }
          if env.hashErr then
            { resp := errRespCode 500 "Password processing failed" "PASSWORD_HASH_ERROR",
              st := applyCleanup st1 env.freshId env.cleanupErr,
              deleteAttempts := [env.freshId] }
          else
            match env.insertOutcome with
            | .err code =>
              { resp :=
                  if code = "23505" then
                    errRespCode 409 "Shop with this email or phone already exists" "DUPLICATE_SHOP_DATA"
                  else if code = "23502" then
                    errRespCode 400 "Required shop information is missing" "MISSING_SHOP_DATA"
                  else
                    errRespCode 500 "Failed to create shop profile" "DATABASE_INSERT_ERROR",
                st := applyCleanup st1 env.freshId env.cleanupErr,
                deleteAttempts := [env.freshId] }
            | .exn =>
              { resp := errRespCode 500 "Database service unavailable" "DATABASE_SERVICE_UNAVAILABLE",
                st := applyCleanup st1 env.freshId env.cleanupErr,
                deleteAttempts := [env.freshId] }
            | .ok =>
              let p := newShopProfile inp env
              { resp := sendTokenResponse p env.session 201,
                st := { st1 with users := st1.users ++ [p] },
                deleteAttempts := [] }

/-- `registerFamily` (authController.js lines 554-816). -/
def registerFamily (st : St) (inp : FamilyData) (env : RegEnv) : RegResult :=
  if inp.validation_isValid = false then
    { resp := validationErrResp inp.validation_errors, st := st, deleteAttempts := [] }
  else
    match env.checkOutcome with
    | .exn =>
      { resp := errRespCode 500 "Database service unavailable" "DATABASE_SERVICE_UNAVAILABLE",
        st := st, deleteAttempts := [] }
    | .err =>
      { resp := errRespCode 500 "Database service error" "DATABASE_QUERY_ERROR",
        st := st, deleteAttempts := [] }
    | .ok =>
      match precheck st.users inp.email inp.phone with
      | e :: _ =>
        { resp := familyConflictResp (if e.email = inp.email then "email" else "phone"),
          st := st, deleteAttempts := [] }
      | [] =>
        match env.signUpOutcome with
        | .exn =>
          { resp := errRespCode 500 "Authentication service unavailable" "AUTH_SERVICE_UNAVAILABLE",
            st := st, deleteAttempts := [] }
        | .err msg =>
          { resp := signUpErrorResp msg "Family registration is currently disabled",
            st := st, deleteAttempts := [] }
        | .ok =>
          let st1 : St :=
            { st with auth := st.auth ++ [{ id := env.freshId, email := inp.email, password := inp.password }] }
          if env.hashErr then
            { resp := errRespCode 500 "Password processing failed" "PASSWORD_HASH_ERROR",
              st := applyCleanup st1 env.freshId env.cleanupErr,
              deleteAttempts := [env.freshId] }
          else
            match env.insertOutcome with
            | .err code =>
              { resp :=
                  if code = "23505" then
                    errRespCode 409 "Productive family with this email or phone already exists" "DUPLICATE_FAMILY_DATA"
                  else if code = "23502" then
                    errRespCode 400 "Required family information is missing" "MISSING_FAMILY_DATA"
                  else
                    errRespCode 500 "Failed to create family profile" "DATABASE_INSERT_ERROR",
                st := applyCleanup st1 env.freshId env.cleanupErr,
                deleteAttempts := [env.freshId] }
            | .exn =>
              { resp := errRespCode 500 "Database service unavailable" "DATABASE_SERVICE_UNAVAILABLE",
                st := applyCleanup st1 env.freshId env.cleanupErr,
                deleteAttempts := [env.freshId] }
            | .ok =>
              let p := newFamilyProfile inp env
              { resp := sendTokenResponse p env.session 201,
                st := { st1 with users := st1.users ++ [p] },
                deleteAttempts := [] }

/-- All top-level keys of a response body plus the keys of any nested
object field. -/
def respKeys (r : Resp) : List String :=
  r.body.map Prod.fst ++
    r.body.foldr
      (fun f acc =>
        match f.2 with
        | .obj fs => fs.map Prod.fst ++ acc
        | _ => acc)
      []

/-- Fixture: one registered auth account, no profile rows needed. -/
def stC1 : St :=
  { users := [], auth := [{ id := 1, email := "user@waffer.app", password := "correct-pw" }] }

/-- Fixture: a deactivated profile whose credentials verify. -/
def profDeact : Profile :=
  { id := 1, name := "Test User", email := "user@waffer.app", phone := "0555555555",
    password_hash := some "bcrypt-hash", user_type := "customer", city := "Riyadh",
    district := none, latitude := none, longitude := none,
    business_name := none, business_type := none, commercial_registration := none,
    family_size := none, specialty := none, years_of_experience := none,
    nafath_id := none, is_nafath_verified := false,
    is_active := false, is_verified := true, created_at := none, updated_at := none }

def stC8 : St :=
  { users := [profDeact], auth := [{ id := 1, email := "user@waffer.app", password := "correct-pw" }] }

/-- Fixture: empty store. -/
def stEmpty : St := { users := [], auth := [] }

/-- Fixture: a validated customer registration payload. -/
def custInp : CustomerData :=
  { validation_isValid := true, validation_errors := [],
    name := "Test User", email := "new@waffer.app", phone := "0550000000",
    password := "secret1", city := "Riyadh", district := none, bodyCoordinates := none }

/-- Fixture: all collaborators succeed. -/
def envOk : RegEnv :=
  { checkOutcome := .ok, signUpOutcome := .ok, freshId := 7, session := some "sess",
    hashErr := false, hashed := "bcrypt-hash", insertOutcome := .ok,
    cleanupErr := false, time := 3 }

/-- Fixture: bcrypt fails after the auth record was created, and the
cleanup fails too. -/
def envHashFail : RegEnv :=
  { checkOutcome := .ok, signUpOutcome := .ok, freshId := 7, session := some "sess",
    hashErr := true, hashed := "", insertOutcome := .ok,
    cleanupErr := true, time := 3 }

/-- Fixture: an existing shop holding commercial registration
"1234567890". -/
def shopProfC5 : Profile :=
  { id := 1, name := "Existing Shop", email := "shop1@waffer.app", phone := "0551111111",
    password_hash := some "h1", user_type := "shop", city := "Riyadh",
    district := none, latitude := none, longitude := none,
    business_name := some "Shop One", business_type := none,
    commercial_registration := some "1234567890",
    family_size := none, specialty := none, years_of_experience := none,
    nafath_id := none, is_nafath_verified := false,
    is_active := true, is_verified := false, created_at := none, updated_at := none }

def stC5 : St :=
  { users := [shopProfC5], auth := [{ id := 1, email := "shop1@waffer.app", password := "pw1" }] }

/-- Fixture: a shop registration with fresh email and phone but the
same commercial registration number as `shopProfC5`. -/
def shopInpC5 : ShopData :=
  { validation_isValid := true, validation_errors := [],
    name := "New Shop Owner", email := "shop2@waffer.app", phone := "0552222222",
    password := "secret2", city := "Jeddah", district := none,
    businessName := "Shop Two", businessType := none,
    commercialRegistration := some "1234567890", bodyCoordinates := none }

/-- Fixture: a shop registration whose email conflicts with
`shopProfC5`. -/
def shopInpC5b : ShopData :=
  { validation_isValid := true, validation_errors := [],
    name := "New Shop Owner", email := "shop1@waffer.app", phone := "0553333333",
    password := "secret3", city := "Jeddah", district := none,
    businessName := "Shop Three", businessType := none,
    commercialRegistration := none, bodyCoordinates := none }

/-- Fixture: a validated family registration payload. -/
def famInp : FamilyData :=
  { validation_isValid := true, validation_errors := [],
    name := "Family User", email := "fam@waffer.app", phone := "0554444444",
    password := "secret4", city := "Riyadh", district := none,
    familySize := 4, specialty := some "food", yearsOfExperience := some 2,
    businessName := none, bodyCoordinates := none }

/-- `res.status(200).json({success:true, message:m})`. -/
def okResp (message : String) : Resp :=
  { status := 200,
    body := [("success", .val (.vb true)),
             ("message", .val (.vs message))] }

/-- The `userData` object of a Nafath callback request body. -/
structure NafathUserData where
  name : String
  email : String
  phone : String
  city : Option String
deriving DecidableEq, Repr

/-- The body of a `POST /api/auth/nafath/callback` request. -/
structure NafathInput where
  nafathId : String
  verified : Bool
  userData : NafathUserData
deriving DecidableEq, Repr

/-- Per-request outcomes of the collaborators `nafathCallback` uses:
the nafath_id lookup (a non-PGRST116 error), `auth.signUp` (with the
random generated password and assigned id), the profile insert, the
profile update, and `admin.generateLink` (whose error the code
ignores; only `sessionData?.session` is read). -/
structure NafathEnv where
  findErr : Bool
  signUpErr : Bool
  freshId : Nat
  randomPwd : String
  session : Option String
  profileInsertErr : Bool
  updateErr : Bool
  linkSession : Option String
deriving DecidableEq, Repr

/-- Result of `.eq('nafath_id', id).single()`: PostgREST returns the
row when exactly one matches and a PGRST116 error otherwise (zero or
multiple rows). -/
inductive FindSingle where
  | found (u : Profile)
  | pgrst116
deriving DecidableEq, Repr

def findSingleByNafathId (users : List Profile) (nid : String) : FindSingle :=
  match users.filter (fun u => u.nafath_id == some nid) with
  | [u] => .found u
  | _ => .pgrst116

/-- JavaScript `x || d` on an optional string: both absence and the
empty string are falsy. -/
def jsStrOrDefault (x : Option String) (d : String) : String :=
  match x with
  | some s => if s = "" then d else s
  | none => d

/-- The row inserted by the Nafath create path (authController.js
lines 1323-1337): no password_hash, `user_type = 'customer'`, both
verification flags true, city defaulted.  Columns the insert omits
take their schema defaults (`is_active` true; timestamps left
unmodelled). -/
def nafathNewProfile (inp : NafathInput) (env : NafathEnv) : Profile :=
  { id := env.freshId, name := inp.userData.name, email := inp.userData.email,
    phone := inp.userData.phone,
    password_hash := none, user_type := "customer",
    city := jsStrOrDefault inp.userData.city "الرياض",
    district := none, latitude := none, longitude := none,
    business_name := none, business_type := none, commercial_registration := none,
    family_size := none, specialty := none, years_of_experience := none,
    nafath_id := some inp.nafathId,
    is_nafath_verified := true, is_active := true, is_verified := true,
    created_at := none, updated_at := none }

structure NafathResult where
  resp : Resp
  st : St
deriving DecidableEq, Repr

/-- `nafathCallback` (authController.js lines 1274-1392). -/
def nafathCallback (st : St) (inp : NafathInput) (env : NafathEnv) : NafathResult :=
  if inp.nafathId = "" then
    { resp := errResp 400 "Please provide Nafath ID", st := st }
  else if inp.verified = false then
    { resp := errResp 401 "Nafath verification failed", st := st }
  else if env.findErr then
    { resp := errResp 500 "Database error", st := st }
  else
    match findSingleByNafathId st.users inp.nafathId with
    | .pgrst116 =>
      if env.signUpErr then
        { resp := errResp 500 "Failed to create user account", st := st }
      else
        let st1 : St :=
          { st with auth := st.auth ++
              [{ id := env.freshId, email := inp.userData.email, password := env.randomPwd }] }
        if env.profileInsertErr then
          { resp := errResp 500 "Failed to create user profile", st := st1 }
        else
          let p := nafathNewProfile inp env
          { resp := sendTokenResponse p env.session 200,
            st := { st1 with users := st1.users ++ [p] } }
    | .found existing =>
      if env.updateErr then
        { resp := errResp 500 "Failed to update user", st := st }
      else
        let updated : Profile :=
          { existing with is_nafath_verified := true, is_verified := true }
        let newUsers : List Profile :=
          st.users.map (fun u =>
            if u.id == existing.id then
              { u with is_nafath_verified := true, is_verified := true }
            else u)
        { resp := sendTokenResponse updated env.linkSession 200,
          st := { st with users := newUsers } }

/-- Per-request outcomes for `verifyEmail`: `supabase.auth.verifyOtp`
(the verified user's id on success) and the follow-up `is_verified`
update. -/
structure VerifyEnv where
  otpUserId : Option Nat
  updateErr : Bool
deriving DecidableEq, Repr

structure VerifyResult where
  resp : Resp
  st : St
deriving DecidableEq, Repr

/-- `verifyEmail` (authController.js lines 1114-1160): a failed
`is_verified` update is only logged; the 200 response is sent
regardless. -/
def verifyEmail (st : St) (token_hash ty : String) (env : VerifyEnv) : VerifyResult :=
  if token_hash = "" ∨ ty ≠ "email" then
    { resp := errResp 400 "Invalid verification parameters", st := st }
  else
    match env.otpUserId with
    | none => { resp := errResp 400 "Invalid or expired verification token", st := st }
    | some uid =>
      let newUsers : List Profile :=
        st.users.map (fun u => if u.id == uid then { u with is_verified := true } else u)
      let st1 : St :=
        if env.updateErr then st else { st with users := newUsers }
      { resp := okResp "Email verified successfully", st := st1 }

/-- Splits a character list at every occurrence of `sep`
(JavaScript `String.prototype.split` with a single-character
separator). -/
def splitCharAux (sep : Char) : List Char → List Char → List (List Char)
  | [], acc => [acc.reverse]
  | c :: cs, acc =>
    if c = sep then acc.reverse :: splitCharAux sep cs []
    else splitCharAux sep cs (c :: acc)

def jsSplit (s : String) (sep : Char) : List String :=
  (splitCharAux sep s.toList []).map (fun cs => String.mk cs)

/-- Token extraction shared by `protect` and `optionalAuth`:
`authorization.startsWith('Bearer')` then `split(' ')[1]` (which may
be absent). -/
def extractToken (authHeader : Option String) : Option String :=
  match authHeader with
  | some h =>
    if "Bearer".toList.isPrefixOf h.toList then (jsSplit h ' ').get? 1
    else none
  | none => none

/-- Outcome of `jwt.verify`: the decoded subject id, or none when the
token is invalid/expired (verification throws). -/
structure AuthzEnv where
  jwtUserId : Option Nat
deriving DecidableEq, Repr

/-- The full row `select('*')` returns for a user, as the key-value
object the middleware manipulates. -/
def rowFields (u : Profile) : List (String × PrimVal) :=
  [("id", .vn (Int.ofNat u.id)),
   ("name", .vs u.name),
   ("email", .vs u.email),
   ("phone", .vs u.phone),
   ("password_hash", optStrVal u.password_hash),
   ("user_type", .vs u.user_type),
   ("city", .vs u.city),
   ("district", optStrVal u.district),
   ("business_name", optStrVal u.business_name),
   ("business_type", optStrVal u.business_type),
   ("commercial_registration", optStrVal u.commercial_registration),
   ("family_size", optNatVal u.family_size),
   ("specialty", optStrVal u.specialty),
   ("years_of_experience", optNatVal u.years_of_experience),
   ("nafath_id", optStrVal u.nafath_id),
   ("is_nafath_verified", .vb u.is_nafath_verified),
   ("is_active", .vb u.is_active),
   ("is_verified", .vb u.is_verified),
   ("created_at", optNatVal u.created_at),
   ("updated_at", optNatVal u.updated_at)]

/-- JavaScript `delete obj[k]`. -/
def deleteKey (k : String) (fs : List (String × PrimVal)) : List (String × PrimVal) :=
  fs.filter (fun f => f.1 != k)

/-- Outcome of the `protect` middleware: either it responds itself, or
the request proceeds with the attached user object. -/
inductive ProtectResult where
  | halt (r : Resp)
  | proceed (user : List (String × PrimVal))
deriving DecidableEq, Repr

/-- `protect` (the JWT middleware): on success the request continues
with the attached user object (the row with `password_hash` deleted);
otherwise the middleware responds itself. -/
def protect (st : St) (authHeader : Option String) (env : AuthzEnv) : ProtectResult :=
  match extractToken authHeader with
  | none => .halt (errResp 401 "Not authorized to access this route")
  | some t =>
    if t = "" then .halt (errResp 401 "Not authorized to access this route")
    else
      match env.jwtUserId with
      | none => .halt (errResp 401 "Not authorized to access this route")
      | some uid =>
        match findById st.users uid with
        | none => .halt (errResp 401 "User not found")
        | some u =>
          if u.is_active = false then
            .halt (errResp 401 "User account is deactivated")
          else .proceed (deleteKey "password_hash" (rowFields u))

/-- `optionalAuth`: never fails the request; attaches the redacted
user only when the token decodes, the row exists and is active. -/
def optionalAuth (st : St) (authHeader : Option String) (env : AuthzEnv) :
    Option (List (String × PrimVal)) :=
  match extractToken authHeader with
  | none => none
  | some t =>
    if t = "" then none
    else
      match env.jwtUserId with
      | none => none
      | some uid =>
        match findById st.users uid with
        | none => none
        | some u =>
          if u.is_active then some (deleteKey "password_hash" (rowFields u))
          else none

/-- The mongoose `User` document fields `generateResetPasswordToken`
touches or could touch. -/
structure MUser where
  name : String
  email : String
  phone : String
  password : String
  userType : String
  verificationToken : Option String
  resetPasswordToken : Option String
  resetPasswordExpire : Option Nat
deriving DecidableEq, Repr

structure ResetTokenResult where
  user : MUser
  token : String
deriving DecidableEq, Repr

/-- `generateResetPasswordToken` (models/User.js lines 212-224):
`raw` is the hex string from `crypto.randomBytes(32)`, `sha256` the
one-way hash, `now` is `Date.now()` in milliseconds. -/
def generateResetPasswordToken (sha256 : String → String) (raw : String) (now : Nat)
    (u : MUser) : ResetTokenResult :=
  { user := { u with resetPasswordToken := some (sha256 raw),
                     resetPasswordExpire := some (now + 10 * 60 * 1000) },
    token := raw }

/-- Fixture: a verified=false Nafath callback body carrying an id. -/
def nafathInpC3 : NafathInput :=
  { nafathId := "1088888888", verified := false,
    userData := { name := "N", email := "n@waffer.app", phone := "0555555551", city := none } }

/-- Fixture: a verified=true Nafath callback body. -/
def nafathInpC4 : NafathInput :=
  { nafathId := "1099999999", verified := true,
    userData := { name := "Nafath User", email := "nuser@waffer.app",
                  phone := "0555555552", city := some "Jeddah" } }

/-- Fixture: every Nafath collaborator succeeds. -/
def nafathEnvOk : NafathEnv :=
  { findErr := false, signUpErr := false, freshId := 9, randomPwd := "randomhex",
    session := some "nsess", profileInsertErr := false, updateErr := false,
    linkSession := some "magic" }

/-- Fixture: an unverified active profile. -/
def profUnver : Profile :=
  { id := 2, name := "Unverified", email := "unv@waffer.app", phone := "0555555554",
    password_hash := some "h2", user_type := "customer", city := "Riyadh",
    district := none, latitude := none, longitude := none,
    business_name := none, business_type := none, commercial_registration := none,
    family_size := none, specialty := none, years_of_experience := none,
    nafath_id := none, is_nafath_verified := false,
    is_active := true, is_verified := false, created_at := none, updated_at := none }

def stC9 : St := { users := [profUnver], auth := [] }

/-- Fixture: the OTP verifies for user 2 but the follow-up update
fails. -/
def verifyEnvFail : VerifyEnv := { otpUserId := some 2, updateErr := true }

/-- Fixture: an active profile carrying a password hash. -/
def profActive : Profile :=
  { id := 3, name := "Active", email := "act@waffer.app", phone := "0555555555",
    password_hash := some "p-hash", user_type := "customer", city := "Riyadh",
    district := none, latitude := none, longitude := none,
    business_name := none, business_type := none, commercial_registration := none,
    family_size := none, specialty := none, years_of_experience := none,
    nafath_id := none, is_nafath_verified := false,
    is_active := true, is_verified := true, created_at := none, updated_at := none }

def stC10 : St := { users := [profActive], auth := [] }

def authzEnvC10 : AuthzEnv := { jwtUserId := some 3 }

/-- Fixture: a concrete stand-in hash function for witnesses. -/
def hashFixture : String → String := fun s => "sha256-" ++ s

def mUserFix : MUser :=
  { name := "M", email := "m@waffer.app", phone := "0555555553", password := "pw-hash",
    userType := "customer", verificationToken := none,
    resetPasswordToken := none, resetPasswordExpire := none }

/-- An update keyed on an id that occurs nowhere in the list leaves
the list unchanged. -/
theorem map_setFlags_of_no_id (l : List Profile) (i : Nat) (f : Profile → Profile)
    (h : ∀ u ∈ l, u.id ≠ i) :
    l.map (fun u => if u.id = i then f u else u) = l := by
  induction l with
  | nil => rfl
  | cons a t ih =>
    rw [List.map_cons, if_neg (h a (by simp)), ih (fun u hu => h u (by simp [hu]))]

/-- Deleting a key removes it from the key list. -/
theorem deleteKey_key_not_mem (k : String) (fs : List (String × PrimVal)) :
    k ∉ (deleteKey k fs).map Prod.fst := by
  intro hmem
  simp only [deleteKey, List.mem_map, List.mem_filter, bne_iff_ne, ne_eq] at hmem
  obtain ⟨f, ⟨hmemf, hne⟩, hfk⟩ := hmem
  exact hne hfk

/-- C1: a login whose email belongs to no account and a login whose
email belongs to an account but whose password fails verification get
the same single generic 401 "Invalid credentials" response with
byte-identical bodies. -/
theorem login_invalid_credentials_indistinguishable
    (st : St) (e1 p1 e2 p2 : String) (s1 s2 : Option String)
    (he1 : e1 ≠ "") (hp1 : p1 ≠ "") (he2 : e2 ≠ "") (hp2 : p2 ≠ "")
    (h1 : ∀ a ∈ st.auth, a.email ≠ e1)
    (h2 : ∀ a ∈ st.auth, a.email = e2 → a.password ≠ p2) :
    login st e1 p1 s1 = login st e2 p2 s2 ∧
    login st e1 p1 s1 = errResp 401 "Invalid credentials" := by
  have hs1 : signIn st e1 p1 = none := by
    simp only [signIn, List.find?_eq_none, Bool.and_eq_true, beq_iff_eq, not_and]
    intro a ha heq
    exact absurd heq (h1 a ha)
  have hs2 : signIn st e2 p2 = none := by
    simp only [signIn, List.find?_eq_none, Bool.and_eq_true, beq_iff_eq, not_and]
    intro a ha heq
    exact h2 a ha heq
  constructor <;> simp [login, hs1, hs2, he1, hp1, he2, hp2]

theorem login_invalid_credentials_indistinguishable_witness :
    login stC1 "ghost@waffer.app" "whatever" none =
      login stC1 "user@waffer.app" "wrong-pw" none ∧
    login stC1 "ghost@waffer.app" "whatever" none =
      errResp 401 "Invalid credentials" :=
  login_invalid_credentials_indistinguishable stC1
    "ghost@waffer.app" "whatever" "user@waffer.app" "wrong-pw" none none
    (by decide) (by decide) (by decide) (by decide) (by decide) (by decide)

/-- C8: a login whose credentials verify but whose profile has
`is_active = false` fails with the distinct 401 "Account is
deactivated" message and issues no session (no `session` field in the
body). -/
theorem login_deactivated_distinct
    (st : St) (email password : String) (session : Option String)
    (a : AuthAccount) (u : Profile)
    (he : email ≠ "") (hp : password ≠ "")
    (hs : signIn st email password = some a)
    (hf : findById st.users a.id = some u)
    (hact : u.is_active = false) :
    login st email password session = errResp 401 "Account is deactivated" ∧
    "session" ∉ (login st email password session).body.map Prod.fst := by
  have hlogin : login st email password session = errResp 401 "Account is deactivated" := by
    simp [login, hs, hf, hact, he, hp]
  refine ⟨hlogin, ?_⟩
  rw [hlogin]
  decide

theorem login_deactivated_distinct_witness :
    login stC8 "user@waffer.app" "correct-pw" none =
      errResp 401 "Account is deactivated" ∧
    "session" ∉ (login stC8 "user@waffer.app" "correct-pw" none).body.map Prod.fst :=
  login_deactivated_distinct stC8 "user@waffer.app" "correct-pw" none
    { id := 1, email := "user@waffer.app", password := "correct-pw" } profDeact
    (by decide) (by decide) (by decide) (by decide) rfl

/-- C2: in each of the three registration flows, if password hashing
or the profile insert fails after the external auth record was
created, the flow attempts to delete the orphaned auth record, and the
response is determined by the original failure alone — it never
depends on whether the cleanup succeeded. -/
theorem register_rollback_compensation :
    (∀ (st : St) (inp : CustomerData) (env : RegEnv),
      inp.validation_isValid = true →
      env.checkOutcome = .ok →
      precheck st.users inp.email inp.phone = [] →
      env.signUpOutcome = .ok →
      (env.hashErr = true ∨ env.insertOutcome ≠ .ok) →
      (register st inp env).deleteAttempts = [env.freshId] ∧
      (∀ b, (register st inp { env with cleanupErr := b }).resp = (register st inp env).resp) ∧
      (env.hashErr = true →
        (register st inp env).resp =
          errRespCode 500 "Password processing failed" "PASSWORD_HASH_ERROR") ∧
      (∀ code, env.hashErr = false → env.insertOutcome = .err code →
        (register st inp env).resp =
          (if code = "23505" then
            errRespCode 409 "User with this email or phone already exists" "DUPLICATE_USER_DATA"
           else if code = "23502" then
            errRespCode 400 "Required user information is missing" "MISSING_USER_DATA"
           else
            errRespCode 500 "Failed to create user profile" "DATABASE_INSERT_ERROR")) ∧
      (env.hashErr = false → env.insertOutcome = .exn →
        (register st inp env).resp =
          errRespCode 500 "Database service unavailable" "DATABASE_SERVICE_UNAVAILABLE")) ∧
    (∀ (st : St) (inp : ShopData) (env : RegEnv),
      inp.validation_isValid = true →
      env.checkOutcome = .ok →
      precheck st.users inp.email inp.phone = [] →
      env.signUpOutcome = .ok →
      (env.hashErr = true ∨ env.insertOutcome ≠ .ok) →
      (registerShop st inp env).deleteAttempts = [env.freshId] ∧
      (∀ b, (registerShop st inp { env with cleanupErr := b }).resp = (registerShop st inp env).resp) ∧
      (env.hashErr = true →
        (registerShop st inp env).resp =
          errRespCode 500 "Password processing failed" "PASSWORD_HASH_ERROR") ∧
      (∀ code, env.hashErr = false → env.insertOutcome = .err code →
        (registerShop st inp env).resp =
          (if code = "23505" then
            errRespCode 409 "Shop with this email or phone already exists" "DUPLICATE_SHOP_DATA"
           else if code = "23502" then
            errRespCode 400 "Required shop information is missing" "MISSING_SHOP_DATA"
           else
            errRespCode 500 "Failed to create shop profile" "DATABASE_INSERT_ERROR")) ∧
      (env.hashErr = false → env.insertOutcome = .exn →
        (registerShop st inp env).resp =
          errRespCode 500 "Database service unavailable" "DATABASE_SERVICE_UNAVAILABLE")) ∧
    (∀ (st : St) (inp : FamilyData) (env : RegEnv),
      inp.validation_isValid = true →
      env.checkOutcome = .ok →
      precheck st.users inp.email inp.phone = [] →
      env.signUpOutcome = .ok →
      (env.hashErr = true ∨ env.insertOutcome ≠ .ok) →
      (registerFamily st inp env).deleteAttempts = [env.freshId] ∧
      (∀ b, (registerFamily st inp { env with cleanupErr := b }).resp = (registerFamily st inp env).resp) ∧
      (env.hashErr = true →
        (registerFamily st inp env).resp =
          errRespCode 500 "Password processing failed" "PASSWORD_HASH_ERROR") ∧
      (∀ code, env.hashErr = false → env.insertOutcome = .err code →
        (registerFamily st inp env).resp =
          (if code = "23505" then
            errRespCode 409 "Productive family with this email or phone already exists" "DUPLICATE_FAMILY_DATA"
           else if code = "23502" then
            errRespCode 400 "Required family information is missing" "MISSING_FAMILY_DATA"
           else
            errRespCode 500 "Failed to create family profile" "DATABASE_INSERT_ERROR")) ∧
      (env.hashErr = false → env.insertOutcome = .exn →
        (registerFamily st inp env).resp =
          errRespCode 500 "Database service unavailable" "DATABASE_SERVICE_UNAVAILABLE")) := by
  refine ⟨?_, ?_, ?_⟩ <;>
    intro st inp env hv hc hp hs hfail <;>
    cases hE : env.hashErr <;> cases hio : env.insertOutcome <;>
    refine ⟨?_, ?_, ?_, ?_, ?_⟩ <;>
    simp_all [register, registerShop, registerFamily]

theorem register_rollback_compensation_witness :
    (register stEmpty custInp envHashFail).deleteAttempts = [envHashFail.freshId] ∧
    (register stEmpty custInp envHashFail).resp =
      errRespCode 500 "Password processing failed" "PASSWORD_HASH_ERROR" :=
  ⟨(register_rollback_compensation.1 stEmpty custInp envHashFail rfl rfl rfl rfl
      (Or.inl rfl)).1,
   (register_rollback_compensation.1 stEmpty custInp envHashFail rfl rfl rfl rfl
      (Or.inl rfl)).2.2.1 rfl⟩

/-- C6: every successful registration of each of the three kinds
serializes no `password_hash`/`passwordHash` field anywhere in the
response body, and the profile it stores has `is_verified = false`. -/
theorem register_success_no_password_hash :
    (∀ (st : St) (inp : CustomerData) (env : RegEnv),
      inp.validation_isValid = true →
      env.checkOutcome = .ok →
      precheck st.users inp.email inp.phone = [] →
      env.signUpOutcome = .ok →
      env.hashErr = false →
      env.insertOutcome = .ok →
      (register st inp env).resp = sendTokenResponse (newCustomerProfile inp env) env.session 201 ∧
      (register st inp env).st.users = st.users ++ [newCustomerProfile inp env] ∧
      (newCustomerProfile inp env).is_verified = false ∧
      "password_hash" ∉ respKeys (register st inp env).resp ∧
      "passwordHash" ∉ respKeys (register st inp env).resp) ∧
    (∀ (st : St) (inp : ShopData) (env : RegEnv),
      inp.validation_isValid = true →
      env.checkOutcome = .ok →
      precheck st.users inp.email inp.phone = [] →
      env.signUpOutcome = .ok →
      env.hashErr = false →
      env.insertOutcome = .ok →
      (registerShop st inp env).resp = sendTokenResponse (newShopProfile inp env) env.session 201 ∧
      (registerShop st inp env).st.users = st.users ++ [newShopProfile inp env] ∧
      (newShopProfile inp env).is_verified = false ∧
      "password_hash" ∉ respKeys (registerShop st inp env).resp ∧
      "passwordHash" ∉ respKeys (registerShop st inp env).resp) ∧
    (∀ (st : St) (inp : FamilyData) (env : RegEnv),
      inp.validation_isValid = true →
      env.checkOutcome = .ok →
      precheck st.users inp.email inp.phone = [] →
      env.signUpOutcome = .ok →
      env.hashErr = false →
      env.insertOutcome = .ok →
      (registerFamily st inp env).resp = sendTokenResponse (newFamilyProfile inp env) env.session 201 ∧
      (registerFamily st inp env).st.users = st.users ++ [newFamilyProfile inp env] ∧
      (newFamilyProfile inp env).is_verified = false ∧
      "password_hash" ∉ respKeys (registerFamily st inp env).resp ∧
      "passwordHash" ∉ respKeys (registerFamily st inp env).resp) := by
  refine ⟨?_, ?_, ?_⟩ <;>
    intro st inp env hv hc hp hs hE hio <;>
    refine ⟨?_, ?_, ?_, ?_, ?_⟩ <;>
    simp_all [register, registerShop, registerFamily, respKeys, sendTokenResponse,
      userObjFields, newCustomerProfile, newShopProfile, newFamilyProfile]

theorem register_success_no_password_hash_witness :
    (register stEmpty custInp envOk).st.users = stEmpty.users ++ [newCustomerProfile custInp envOk] ∧
    (newCustomerProfile custInp envOk).is_verified = false ∧
    "password_hash" ∉ respKeys (register stEmpty custInp envOk).resp :=
  ⟨(register_success_no_password_hash.1 stEmpty custInp envOk rfl rfl rfl rfl rfl rfl).2.1,
   (register_success_no_password_hash.1 stEmpty custInp envOk rfl rfl rfl rfl rfl rfl).2.2.1,
   (register_success_no_password_hash.1 stEmpty custInp envOk rfl rfl rfl rfl rfl rfl).2.2.2.1⟩

/-- C5 counterexample: the claim says the shop uniqueness pre-check
covers commercial-registration-number and that any conflict yields a
409; here an existing shop holds the same commercial registration
number as the request, yet registration succeeds with 201. -/
theorem registerShop_cr_conflict_not_detected :
    (∃ u ∈ stC5.users, u.commercial_registration = shopInpC5.commercialRegistration) ∧
    shopInpC5.commercialRegistration = some "1234567890" ∧
    (registerShop stC5 shopInpC5 envOk).resp.status = 201 ∧
    (registerShop stC5 shopInpC5 envOk).resp.status ≠ 409 := by
  refine ⟨⟨shopProfC5, by decide, by decide⟩, by decide, by decide, by decide⟩

/-- C5 (amended): the shop uniqueness pre-check is one query filtering
on email OR phone only — commercial-registration-number is not part of
it — and on an email/phone conflict the operation fails with 409
naming the conflicting field taken from the first conflicting row. -/
theorem registerShop_precheck_email_phone_only
    (st : St) (inp : ShopData) (env : RegEnv)
    (hv : inp.validation_isValid = true)
    (hc : env.checkOutcome = .ok) :
    (∀ u, u ∈ precheck st.users inp.email inp.phone ↔
      (u ∈ st.users ∧ (u.email = inp.email ∨ u.phone = inp.phone))) ∧
    (∀ cr, precheck st.users inp.email inp.phone =
      precheck st.users ({ inp with commercialRegistration := cr } : ShopData).email
        ({ inp with commercialRegistration := cr } : ShopData).phone) ∧
    (∀ e rest, precheck st.users inp.email inp.phone = e :: rest →
      (registerShop st inp env).resp =
        shopConflictResp (if e.email = inp.email then "email" else "phone")) := by
  refine ⟨?_, ?_, ?_⟩
  · intro u
    simp [precheck, List.mem_filter]
  · intro cr
    rfl
  · intro e rest hconf
    simp [registerShop, hv, hc, hconf]

theorem registerShop_precheck_email_phone_only_witness :
    (shopProfC5 ∈ precheck stC5.users shopInpC5b.email shopInpC5b.phone ↔
      (shopProfC5 ∈ stC5.users ∧
        (shopProfC5.email = shopInpC5b.email ∨ shopProfC5.phone = shopInpC5b.phone))) ∧
    (registerShop stC5 shopInpC5b envOk).resp =
      shopConflictResp (if shopProfC5.email = shopInpC5b.email then "email" else "phone") :=
  ⟨(registerShop_precheck_email_phone_only stC5 shopInpC5b envOk rfl rfl).1 shopProfC5,
   (registerShop_precheck_email_phone_only stC5 shopInpC5b envOk rfl rfl).2.2 shopProfC5 []
     (by decide)⟩

/-- C3: a Nafath callback with `verified = false` leaves the store
exactly as it was, and (when a Nafath id is supplied) responds 401
"Nafath verification failed". -/
theorem nafathCallback_unverified_frame
    (st : St) (inp : NafathInput) (env : NafathEnv)
    (hv : inp.verified = false) :
    (nafathCallback st inp env).st = st ∧
    (inp.nafathId ≠ "" →
      (nafathCallback st inp env).resp = errResp 401 "Nafath verification failed") := by
  by_cases hid : inp.nafathId = "" <;> simp [nafathCallback, hid, hv]

theorem nafathCallback_unverified_frame_witness :
    (nafathCallback stEmpty nafathInpC3 nafathEnvOk).st = stEmpty ∧
    (nafathCallback stEmpty nafathInpC3 nafathEnvOk).resp =
      errResp 401 "Nafath verification failed" :=
  ⟨(nafathCallback_unverified_frame stEmpty nafathInpC3 nafathEnvOk rfl).1,
   (nafathCallback_unverified_frame stEmpty nafathInpC3 nafathEnvOk rfl).2 (by decide)⟩

/-- C4: a verified callback for an unknown Nafath id creates exactly
one new customer profile with both verification flags true; a second
verified callback with the same id updates that same profile (a
no-op, since the flags are already true) and creates no duplicate. -/
theorem nafathCallback_verified_create_idempotent
    (st : St) (inp : NafathInput) (env env2 : NafathEnv)
    (hid : inp.nafathId ≠ "")
    (hv : inp.verified = true)
    (hnone : st.users.filter (fun u => u.nafath_id == some inp.nafathId) = [])
    (hfresh : ∀ u ∈ st.users, u.id ≠ env.freshId)
    (hfe : env.findErr = false)
    (hse : env.signUpErr = false)
    (hpe : env.profileInsertErr = false)
    (hfe2 : env2.findErr = false)
    (hue2 : env2.updateErr = false) :
    (nafathCallback st inp env).st.users = st.users ++ [nafathNewProfile inp env] ∧
    (nafathNewProfile inp env).user_type = "customer" ∧
    (nafathNewProfile inp env).is_nafath_verified = true ∧
    (nafathNewProfile inp env).is_verified = true ∧
    (nafathNewProfile inp env).nafath_id = some inp.nafathId ∧
    ((nafathCallback st inp env).st.users.filter
      (fun u => u.nafath_id == some inp.nafathId)).length = 1 ∧
    (nafathCallback (nafathCallback st inp env).st inp env2).st =
      (nafathCallback st inp env).st ∧
    (nafathCallback (nafathCallback st inp env).st inp env2).resp =
      sendTokenResponse (nafathNewProfile inp env) env2.linkSession 200 := by
  have hfind : findSingleByNafathId st.users inp.nafathId = .pgrst116 := by
    simp [findSingleByNafathId, hnone]
  have hrunSt : (nafathCallback st inp env).st =
      { users := st.users ++ [nafathNewProfile inp env],
        auth := st.auth ++
          [{ id := env.freshId, email := inp.userData.email, password := env.randomPwd }] } := by
    simp [nafathCallback, hid, hv, hfe, hfind, hse, hpe]
  have hrun1 : (nafathCallback st inp env).st.users =
      st.users ++ [nafathNewProfile inp env] := by
    rw [hrunSt]
  have hfilter1 : ((st.users ++ [nafathNewProfile inp env]).filter
      (fun u => u.nafath_id == some inp.nafathId)) = [nafathNewProfile inp env] := by
    rw [List.filter_append, hnone]
    simp [nafathNewProfile]
  have hfind2 : findSingleByNafathId (st.users ++ [nafathNewProfile inp env]) inp.nafathId =
      .found (nafathNewProfile inp env) := by
    simp [findSingleByNafathId, hfilter1]
  have hupd : (nafathNewProfile inp env) =
      { (nafathNewProfile inp env) with is_nafath_verified := true, is_verified := true } := rfl
  have hsecond : nafathCallback (nafathCallback st inp env).st inp env2 =
      { resp := sendTokenResponse (nafathNewProfile inp env) env2.linkSession 200,
        st := (nafathCallback st inp env).st } := by
    rw [hrunSt]
    simp [nafathCallback, hid, hv, hfe2, hfind2, hue2, ← hupd]
    exact map_setFlags_of_no_id st.users (nafathNewProfile inp env).id _
      (fun u hu => hfresh u hu)
  refine ⟨hrun1, rfl, rfl, rfl, rfl, ?_, ?_, ?_⟩
  · rw [hrun1, hfilter1]
    rfl
  · rw [hsecond]
  · rw [hsecond]

theorem nafathCallback_verified_create_idempotent_witness :
    (nafathCallback stEmpty nafathInpC4 nafathEnvOk).st.users =
      stEmpty.users ++ [nafathNewProfile nafathInpC4 nafathEnvOk] ∧
    ((nafathCallback stEmpty nafathInpC4 nafathEnvOk).st.users.filter
      (fun u => u.nafath_id == some nafathInpC4.nafathId)).length = 1 ∧
    (nafathCallback (nafathCallback stEmpty nafathInpC4 nafathEnvOk).st
        nafathInpC4 nafathEnvOk).st =
      (nafathCallback stEmpty nafathInpC4 nafathEnvOk).st :=
  ⟨(nafathCallback_verified_create_idempotent stEmpty nafathInpC4 nafathEnvOk nafathEnvOk
      (by decide) rfl rfl (by decide) rfl rfl rfl rfl rfl).1,
   (nafathCallback_verified_create_idempotent stEmpty nafathInpC4 nafathEnvOk nafathEnvOk
      (by decide) rfl rfl (by decide) rfl rfl rfl rfl rfl).2.2.2.2.2.1,
   (nafathCallback_verified_create_idempotent stEmpty nafathInpC4 nafathEnvOk nafathEnvOk
      (by decide) rfl rfl (by decide) rfl rfl rfl rfl rfl).2.2.2.2.2.2.1⟩

/-- C9: when the external verifier accepts the token, `verifyEmail`
responds 200 "Email verified successfully" regardless of whether the
`is_verified` update succeeds; when the update fails the store is
untouched, so the 200 does not guarantee `is_verified = true`. -/
theorem verifyEmail_200_despite_update_failure
    (st : St) (token_hash ty : String) (env : VerifyEnv) (uid : Nat)
    (ht : token_hash ≠ "") (hty : ty = "email")
    (hotp : env.otpUserId = some uid) :
    (verifyEmail st token_hash ty env).resp = okResp "Email verified successfully" ∧
    (∀ b, (verifyEmail st token_hash ty { env with updateErr := b }).resp =
      (verifyEmail st token_hash ty env).resp) ∧
    (env.updateErr = true → (verifyEmail st token_hash ty env).st = st) := by
  refine ⟨?_, ?_, ?_⟩
  · simp [verifyEmail, ht, hty, hotp]
  · intro b
    simp [verifyEmail, ht, hty, hotp]
  · intro hu
    simp [verifyEmail, ht, hty, hotp, hu]

theorem verifyEmail_200_despite_update_failure_witness :
    (verifyEmail stC9 "tok-hash" "email" verifyEnvFail).resp =
      okResp "Email verified successfully" ∧
    (verifyEmail stC9 "tok-hash" "email" verifyEnvFail).st = stC9 :=
  ⟨(verifyEmail_200_despite_update_failure stC9 "tok-hash" "email" verifyEnvFail 2
      (by decide) rfl rfl).1,
   (verifyEmail_200_despite_update_failure stC9 "tok-hash" "email" verifyEnvFail 2
      (by decide) rfl rfl).2.2 rfl⟩

/-- C10: whenever `protect` or `optionalAuth` attaches a user object
to the request, its `password_hash` key has been deleted first. -/
theorem middleware_strips_password_hash
    (st : St) (h : Option String) (env : AuthzEnv) (user : List (String × PrimVal)) :
    (protect st h env = .proceed user → "password_hash" ∉ user.map Prod.fst) ∧
    (optionalAuth st h env = some user → "password_hash" ∉ user.map Prod.fst) := by
  constructor
  · intro hp
    unfold protect at hp
    repeat' split at hp
    all_goals first
      | exact ProtectResult.noConfusion hp
      | (injection hp with hq
         subst hq
         exact deleteKey_key_not_mem _ _)
  · intro hp
    unfold optionalAuth at hp
    repeat' split at hp
    all_goals first
      | exact Option.noConfusion hp
      | (injection hp with hq
         subst hq
         exact deleteKey_key_not_mem _ _)

theorem middleware_strips_password_hash_witness :
    protect stC10 (some "Bearer tok123") authzEnvC10 =
      .proceed (deleteKey "password_hash" (rowFields profActive)) ∧
    "password_hash" ∉ (deleteKey "password_hash" (rowFields profActive)).map Prod.fst ∧
    optionalAuth stC10 (some "Bearer tok123") authzEnvC10 =
      some (deleteKey "password_hash" (rowFields profActive)) :=
  ⟨by decide,
   (middleware_strips_password_hash stC10 (some "Bearer tok123") authzEnvC10
      (deleteKey "password_hash" (rowFields profActive))).1 (by decide),
   by decide⟩

/-- C7: `generateResetPasswordToken` stores only the one-way hash of
the generated token (never the raw value), sets the expiry to the
generation time plus 10 minutes (in milliseconds), returns the raw
token for delivery, and touches no other field. -/
theorem generateResetPasswordToken_stores_hash_only
    (sha256 : String → String) (raw : String) (now : Nat) (u : MUser)
    (hnofix : sha256 raw ≠ raw) :
    (generateResetPasswordToken sha256 raw now u).user.resetPasswordToken =
      some (sha256 raw) ∧
    (generateResetPasswordToken sha256 raw now u).user.resetPasswordToken ≠ some raw ∧
    (generateResetPasswordToken sha256 raw now u).user.resetPasswordExpire =
      some (now + 10 * 60 * 1000) ∧
    (generateResetPasswordToken sha256 raw now u).token = raw ∧
    (generateResetPasswordToken sha256 raw now u).user.password = u.password ∧
    (generateResetPasswordToken sha256 raw now u).user.verificationToken =
      u.verificationToken := by
  refine ⟨rfl, ?_, rfl, rfl, rfl, rfl⟩
  simp only [generateResetPasswordToken, ne_eq, Option.some.injEq]
  exact hnofix

theorem generateResetPasswordToken_stores_hash_only_witness :
    (generateResetPasswordToken hashFixture "tok" 1000 mUserFix).user.resetPasswordToken =
      some (hashFixture "tok") ∧
    (generateResetPasswordToken hashFixture "tok" 1000 mUserFix).user.resetPasswordToken ≠
      some "tok" ∧
    (generateResetPasswordToken hashFixture "tok" 1000 mUserFix).user.resetPasswordExpire =
      some (1000 + 10 * 60 * 1000) ∧
    (generateResetPasswordToken hashFixture "tok" 1000 mUserFix).token = "tok" :=
  ⟨(generateResetPasswordToken_stores_hash_only hashFixture "tok" 1000 mUserFix (by decide)).1,
   (generateResetPasswordToken_stores_hash_only hashFixture "tok" 1000 mUserFix (by decide)).2.1,
   (generateResetPasswordToken_stores_hash_only hashFixture "tok" 1000 mUserFix (by decide)).2.2.1,
   (generateResetPasswordToken_stores_hash_only hashFixture "tok" 1000 mUserFix (by decide)).2.2.2.1⟩

end Waffer
